import Mathlib

/-!
Verification of the log-analysis orchestration pipeline of the
repository: the files server/app/rag/pipeline.py,
server/app/utils/safety.py, server/app/utils/text.py and
server/app/schemas/models.py.

External collaborators (the generative chat service, the embedding
service, the vector store, the JSON library, the pydantic validator and
the filesystem-backed mock web search) are modelled as parameters of a
pipeline environment; the orchestration logic itself is translated
directly from the source.
-/

namespace LogPipeline

/-! ### Data model (server/app/schemas/models.py) -/

/-- Literal type of AnalysisResponse.status: "final" | "need_more_info". -/
inductive Status where
  | final
  | need_more_info
deriving DecidableEq

/-- Literal type of AnalysisResponse.confidence: "high" | "medium" | "low". -/
inductive Confidence where
  | high
  | medium
  | low
deriving DecidableEq

/-- Literal type of PlanStep.risk: "low" | "med" | "medium" | "high". -/
inductive Risk where
  | low
  | med
  | medium
  | high
deriving DecidableEq

structure EvidenceItem where
  type : String
  snippet : String
  source : String
deriving DecidableEq

structure PlanStep where
  title : String
  command : String
  purpose : String
  expected : String
  risk : Risk := Risk.low
deriving DecidableEq

structure InfoRequest where
  title : String
  command : String
  why : String
deriving DecidableEq

structure AnalysisResponse where
  status : Status
  root_cause : String
  confidence : Confidence
  reasoning_summary : String
  evidence : List EvidenceItem := []
  plan_steps : List PlanStep := []
  info_requests : List InfoRequest := []
deriving DecidableEq

/-! ### Safety patterns (server/app/utils/safety.py)

The five regular expressions in DANGEROUS_PATTERNS use only literal
characters, the word boundary class, and the one-or-more / zero-or-more
whitespace classes.  They are embedded by a small token matcher with
backtracking, run on the lowercased command, so matching is
case-insensitive. -/

/-- Word character, ASCII fragment of the regex word class. -/
def isWordChar (c : Char) : Bool := c.isAlphanum || c == '_'

/-- Whitespace, ASCII fragment of the regex space class. -/
def isSpaceChar (c : Char) : Bool :=
  c == ' ' || c == '\t' || c == '\n' || c == '\r' || c == '\x0b' || c == '\x0c'

/-- One token of a regular expression pattern. -/
inductive Tok where
  | lit (c : Char)
  | ws1
  | ws0
  | wordB

/-- Is the (optional) character a word character?  Used for the word
boundary test, where none stands for the edge of the string. -/
def wordAt (c : Option Char) : Bool :=
  match c with
  | some c => isWordChar c
  | none => false

/-- Fuelled matcher: does the token list match a prefix of the character
list, given the character immediately before the current position (for
word boundaries)?  Every recursive call shrinks the sum of the two list
lengths, so the fuel supplied by searchFrom below is never exhausted. -/
def matchToks : Nat → List Tok → Option Char → List Char → Bool
  | 0, _, _, _ => false
  | _ + 1, [], _, _ => true
  | _ + 1, Tok.lit _ :: _, _, [] => false
  | fuel + 1, Tok.lit c :: ts, _, x :: xs =>
      x == c && matchToks fuel ts (some x) xs
  | _ + 1, Tok.ws1 :: _, _, [] => false
  | fuel + 1, Tok.ws1 :: ts, _, x :: xs =>
      isSpaceChar x &&
        (matchToks fuel ts (some x) xs || matchToks fuel (Tok.ws1 :: ts) (some x) xs)
  | fuel + 1, Tok.ws0 :: ts, prev, [] => matchToks fuel ts prev []
  | fuel + 1, Tok.ws0 :: ts, prev, x :: xs =>
      matchToks fuel ts prev (x :: xs) ||
        (isSpaceChar x && matchToks fuel (Tok.ws0 :: ts) (some x) xs)
  | fuel + 1, Tok.wordB :: ts, prev, s =>
      (wordAt prev != wordAt s.head?) && matchToks fuel ts prev s

/-- re.search: try to match the pattern at every start position,
including the position just past the last character. -/
def searchFrom (p : List Tok) : Option Char → List Char → Bool
  | prev, [] => matchToks (p.length + 1) p prev []
  | prev, x :: xs =>
      matchToks (p.length + (x :: xs).length + 1) p prev (x :: xs) ||
        searchFrom p (some x) xs

def reSearch (p : List Tok) (s : List Char) : Bool := searchFrom p none s

/-- A run of literal tokens. -/
def lits (s : String) : List Tok := s.data.map Tok.lit

/-- Pattern 1 of safety.py: recursive force delete. -/
def pat_rm_rf : List Tok :=
  [Tok.wordB] ++ lits "rm" ++ [Tok.ws1] ++ lits "-rf" ++ [Tok.wordB]

/-- Pattern 2 of safety.py: filesystem wipe utility. -/
def pat_wipefs : List Tok := [Tok.wordB] ++ lits "wipefs" ++ [Tok.wordB]

/-- Pattern 3 of safety.py: filesystem format command. -/
def pat_mkfs : List Tok := [Tok.wordB] ++ lits "mkfs" ++ [Tok.lit '.']

/-- Pattern 4 of safety.py: raw block device write. -/
def pat_dd_if : List Tok := [Tok.wordB] ++ lits "dd" ++ [Tok.ws1] ++ lits "if="

/-- Pattern 5 of safety.py: the classic shell fork bomb idiom. -/
def pat_fork_bomb : List Tok :=
  lits ":()" ++
    [Tok.ws0, Tok.lit '\x7b', Tok.ws0, Tok.lit ':', Tok.ws0, Tok.lit '|',
     Tok.ws0, Tok.lit ':', Tok.ws0, Tok.lit ';', Tok.ws0, Tok.lit '\x7d',
     Tok.ws0, Tok.lit ';', Tok.ws0, Tok.lit ':']

def DANGEROUS_PATTERNS : List (List Tok) :=
  [pat_rm_rf, pat_wipefs, pat_mkfs, pat_dd_if, pat_fork_bomb]

/-- is_command_dangerous from server/app/utils/safety.py: the command is
lowercased and searched for each destructive pattern. -/
def is_command_dangerous (cmd : String) : Bool :=
  let c := cmd.data.map Char.toLower
  DANGEROUS_PATTERNS.any (fun p => reSearch p c)

/-! ### Safety gate (pipeline.py, _safe_check, lines 34 to 46) -/

/-- The info request appended by _safe_check when a dangerous command is
found (pipeline.py lines 39 to 43). -/
def unsafeInfoRequest (cmd : String) : InfoRequest :=
  { title := "Unsafe command detected"
  , command := "N/A"
  , why := "Generated command looks unsafe: " ++ cmd ++
      ". Please review and provide safer constraints." }

/-- _safe_check from pipeline.py: scan plan_steps in order; at the first
step whose command is dangerous, set the status to need_more_info, append
one info request naming that command and clear the steps; if no step is
dangerous, return the response unchanged. -/
def safe_check (r : AnalysisResponse) : AnalysisResponse :=
  match r.plan_steps.find? (fun step => is_command_dangerous step.command) with
  | some step =>
      { r with status := Status.need_more_info
             , info_requests := r.info_requests ++ [unsafeInfoRequest step.command]
             , plan_steps := [] }
  | none => r

/-! ### Text truncation (server/app/utils/text.py) -/

/-- truncate from text.py: inputs within the bound pass through
unchanged, longer ones are cut and get the truncation marker. -/
def truncate (s : String) (max_chars : Nat) : String :=
  if s.length ≤ max_chars then s
  else ⟨s.data.take max_chars⟩ ++ "\n...[truncated]..."

/-! ### Context window (pipeline.py lines 97 to 106) -/

/-- One retrieved context item as assembled by _format_contexts
(pipeline.py lines 18 to 32).  The numeric distance reported by the
store travels with the item but is never read by the orchestration
logic, so it is not modelled here. -/
structure ContextItem where
  text : String
  source : String
  chunk_index : Int
deriving DecidableEq

/-- The context window loop of analyze_log (pipeline.py lines 97 to
106): accumulate items in retrieval order while the running character
count stays within the budget; the first overflowing item stops the
loop, dropping itself and everything after it. -/
def trimContexts (budget : Nat) : Nat → List ContextItem → List ContextItem
  | _, [] => []
  | acc, c :: cs =>
      if budget < acc + c.text.length then []
      else c :: trimContexts budget (acc + c.text.length) cs

/-! ### Parser hardening (pipeline.py, _parse_json_strict, lines 48 to 60)

json.loads is the external JSON library; it enters as a parameter, a
function from text to either a parsed value or the name of the raised
exception. -/

/-- Python str.strip: remove whitespace from both ends. -/
def pyStrip (s : List Char) : List Char :=
  ((s.dropWhile isSpaceChar).reverse.dropWhile isSpaceChar).reverse

/-- Python str.find for a single character: index of the first
occurrence, if any. -/
def findIdx : Char → List Char → Option Nat
  | _, [] => none
  | c, x :: xs => if x == c then some 0 else (findIdx c xs).map (· + 1)

/-- Python str.rfind for a single character: index of the last
occurrence, if any. -/
def rfindIdx (c : Char) (s : List Char) : Option Nat :=
  (findIdx c s.reverse).map (fun i => s.length - 1 - i)

/-- Python slice t[a:b]. -/
def slice (s : List Char) (a b : Nat) : List Char := (s.take b).drop a

/-- _parse_json_strict from pipeline.py: strip the text and try a direct
parse; on failure find the first opening brace and the last closing
brace and parse the substring between them inclusive (provided the
closing one comes strictly later); otherwise re-raise the original
error. -/
def parse_json_strict {J : Type} (loads : List Char → Except String J)
    (text : List Char) : Except String J :=
  let t := pyStrip text
  match loads t with
  | Except.ok v => Except.ok v
  | Except.error e =>
      match findIdx '\x7b' t, rfindIdx '\x7d' t with
      | some s, some e2 =>
          if s < e2 then loads (slice t s (e2 + 1)) else Except.error e
      | _, _ => Except.error e

/-! ### The orchestrator (pipeline.py, analyze_log, lines 78 to 210)

The environment gathers every external collaborator of analyze_log:
loads and validate stand for the JSON library and the pydantic
validator AnalysisResponse.model_validate (an error value carries the
name of the raised exception); chat is the Reasoner, giving the text
returned by the n-th chat call of the request (0 planner, 1 critic;
the escalation round would issue further calls but analyze_log raises
before them, see below); contexts is the retrieval result already
shaped by _format_contexts; webResults is what mock_web_search returns
for the derived query (it scores a corpus directory on disk); the
remaining fields are the settings read by analyze_log. -/

/-- One fallback evidence item returned by mock_web_search. -/
structure WebResult where
  title : String
  snippet : String
  source : String
  score : Nat
deriving DecidableEq

structure PipelineEnv (J : Type) where
  loads : List Char → Except String J
  validate : J → Except String AnalysisResponse
  chat : Nat → String
  contexts : List ContextItem
  webResults : List WebResult
  enable_mock_web_search : Bool
  max_log_chars : Nat
  max_context_chars : Nat

/-- One parse plus validate attempt (the try blocks at pipeline.py lines
118 to 121, 150 to 153, 179 to 182 and 192 to 195). -/
def parseValidate {J : Type} (env : PipelineEnv J) (raw : String) :
    Except String AnalysisResponse :=
  (parse_json_strict env.loads raw.data).bind env.validate

/-- The synthesized info request of the canned planner-failure result
(pipeline.py lines 132 to 138). -/
def cannedInfoRequest : InfoRequest :=
  { title := "Provide more context"
  , command := "Provide full pod name/namespace and 200 lines around the error, plus \x27kubectl describe pod ...\x27"
  , why := "Current log excerpt is insufficient or malformed for planning." }

/-- The canned minimal result returned when the planner output cannot be
parsed or validated (pipeline.py lines 125 to 139); errName is the name
of the exception type that was raised. -/
def cannedResult (errName : String) : AnalysisResponse :=
  { status := Status.need_more_info
  , root_cause := "Unable to generate a valid plan from the provided log."
  , confidence := Confidence.low
  , reasoning_summary := "Planner returned non-parseable output. Error: " ++ errName
  , evidence := []
  , plan_steps := []
  , info_requests := [cannedInfoRequest] }

/-- _needs_escalation from pipeline.py (lines 66 to 75). -/
def needs_escalation (resp : AnalysisResponse) : Bool :=
  if resp.status = Status.need_more_info then true
  else if resp.plan_steps.isEmpty then true
  else if resp.confidence = Confidence.low then true
  else false

/-- Parse plus validate the planner output (pipeline.py lines 118 to
121). -/
def stagePlan1 {J : Type} (env : PipelineEnv J) : Except String AnalysisResponse :=
  parseValidate env (env.chat 0)

/-- The critic output if it parses, the planner result otherwise
(pipeline.py lines 150 to 156). -/
def stageReviewed {J : Type} (env : PipelineEnv J) (plan : AnalysisResponse) :
    AnalysisResponse :=
  match parseValidate env (env.chat 1) with
  | Except.ok r => r
  | Except.error _ => plan

/-- analyze_log from pipeline.py.  The first component is the outcome
of the call: ok with the returned StructuredPlan, or error with the
name of the uncaught exception the call raises; the second counts the
Reasoner chat calls issued before that outcome (planner, critic).
The escalation branch (pipeline.py lines 162 to 207) never completes:
when the trigger holds and mock_web_search found results, line 175
evaluates the expression planner_prompt(log_text, contexts,
web_results=web_results), but prompts.py defines
planner_prompt(log_text, contexts) with no web_results parameter and
no keyword catch-all, so argument binding raises an uncaught TypeError
before the third chat call; the planner v2 / critic v2 parse-fallback
logic of lines 171 to 207 is therefore unreachable and is not modelled
as executing. -/
def analyze_log {J : Type} (env : PipelineEnv J) (log_text : String) :
    Except String AnalysisResponse × Nat :=
  let _tlog := truncate log_text env.max_log_chars
  let _ctxs := trimContexts env.max_context_chars 0 env.contexts
  match stagePlan1 env with
  | Except.error e => (Except.ok (cannedResult e), 1)
  | Except.ok plan =>
      let reviewed := safe_check (stageReviewed env plan)
      if env.enable_mock_web_search && needs_escalation reviewed then
        if env.webResults.isEmpty then (Except.ok reviewed, 2)
        else (Except.error "TypeError", 2)
      else (Except.ok reviewed, 2)

example : is_command_dangerous "rm -rf /data" = true := by decide
example : is_command_dangerous "RM   -RF /" = true := by decide
example : is_command_dangerous "ls -la" = false := by decide
example : is_command_dangerous "dd if=/dev/zero of=/dev/sda" = true := by decide
example : is_command_dangerous "mkfs.ext4 /dev/sdb1" = true := by decide
example : is_command_dangerous "normal rmdir foo" = false := by decide
example : is_command_dangerous ":()\x7b :|:; \x7d;:" = true := by decide

/-! ### Helper lemmas -/

/-- Re-applying the gate changes nothing (helper shared by several
theorems below). -/
lemma safeCheckIdem (r : AnalysisResponse) : safe_check (safe_check r) = safe_check r := by
  cases h : r.plan_steps.find? (fun step => is_command_dangerous step.command) with
  | none =>
      have hr : safe_check r = r := by simp [safe_check, h]
      rw [hr, hr]
  | some s =>
      have hr : safe_check r =
          { r with status := Status.need_more_info
                 , info_requests := r.info_requests ++ [unsafeInfoRequest s.command]
                 , plan_steps := [] } := by
        simp [safe_check, h]
      rw [hr]
      simp [safe_check]

/-- find? locates the head of the first satisfying suffix. -/
lemma findFirstOfSplit {α : Type} (p : α → Bool) (a : List α) (s : α) (b : List α)
    (ha : ∀ x, x ∈ a → p x = false) (hs : p s = true) :
    (a ++ s :: b).find? p = some s := by
  induction a with
  | nil => simpa using List.find?_cons_of_pos _ hs
  | cons y ys ih =>
      have hy : ¬ p y = true := by simp [ha y (by simp)]
      rw [List.cons_append, List.find?_cons_of_neg _ hy]
      exact ih (fun x hx => ha x (by simp [hx]))

/-! ### Claim theorems for the Safety Gate -/

/-- C9: the Safety Gate is idempotent: applying safe_check to its own
output yields that output unchanged. -/
theorem c9_safety_gate_idempotent (r : AnalysisResponse) :
    safe_check (safe_check r) = safe_check r :=
  safeCheckIdem r

/-- C2: Safety Gate fail-closed property: if any step of a validated
plan has a dangerous command (in any position), the gated plan has
status need_more_info, empty plan_steps, and an info request appended
that names an offending dangerous command; if no step is dangerous the
plan is returned unchanged. -/
theorem c2_safety_gate_fail_closed (r : AnalysisResponse) :
    ((∃ s, s ∈ r.plan_steps ∧ is_command_dangerous s.command = true) →
      (safe_check r).status = Status.need_more_info ∧
      (safe_check r).plan_steps = [] ∧
      ∃ s, s ∈ r.plan_steps ∧ is_command_dangerous s.command = true ∧
        (safe_check r).info_requests =
          r.info_requests ++ [unsafeInfoRequest s.command]) ∧
    ((∀ s, s ∈ r.plan_steps → is_command_dangerous s.command = false) →
      safe_check r = r) := by
  constructor
  · intro hex
    have hsome : (r.plan_steps.find? (fun step => is_command_dangerous step.command)).isSome := by
      rw [List.find?_isSome]
      exact hex
    obtain ⟨s, hs⟩ := Option.isSome_iff_exists.mp hsome
    have hps : is_command_dangerous s.command = true := by
      simpa using List.find?_some hs
    refine ⟨?_, ?_, s, List.mem_of_find?_eq_some hs, hps, ?_⟩ <;>
      simp [safe_check, hs]
  · intro hall
    have hnone : r.plan_steps.find? (fun step => is_command_dangerous step.command) = none := by
      rw [List.find?_eq_none]
      intro x hx
      simp [hall x hx]
    simp [safe_check, hnone]

/-- A harmless diagnostic step, used by several concrete runs. -/
def stepSafe : PlanStep :=
  { title := "List files"
  , command := "ls -la"
  , purpose := "inspect the data directory"
  , expected := "a file listing"
  , risk := Risk.low }

/-- A destructive step matching the recursive force delete pattern. -/
def stepDanger : PlanStep :=
  { title := "Clean data"
  , command := "rm -rf /data"
  , purpose := "free disk space"
  , expected := "data removed"
  , risk := Risk.high }

/-- A validated plan whose second step is destructive. -/
def respDanger : AnalysisResponse :=
  { status := Status.final
  , root_cause := "disk full"
  , confidence := Confidence.high
  , reasoning_summary := "the device ran out of space"
  , evidence := []
  , plan_steps := [stepSafe, stepDanger]
  , info_requests := [] }

/-- Witness for C2 at a concrete plan containing a destructive step. -/
theorem c2_witness :
    (safe_check respDanger).status = Status.need_more_info ∧
    (safe_check respDanger).plan_steps = [] ∧
    ∃ s, s ∈ respDanger.plan_steps ∧ is_command_dangerous s.command = true ∧
      (safe_check respDanger).info_requests =
        respDanger.info_requests ++ [unsafeInfoRequest s.command] :=
  (c2_safety_gate_fail_closed respDanger).1 ⟨stepDanger, by decide, by decide⟩

/-- C10: the gate leaves root_cause, confidence, reasoning_summary,
evidence and the pre-existing info requests untouched, appends at most
one info request, and when it downgrades it names the command of the
first dangerous step even if later steps are also dangerous. -/
theorem c10_safety_gate_frame (r : AnalysisResponse) :
    (safe_check r).root_cause = r.root_cause ∧
    (safe_check r).confidence = r.confidence ∧
    (safe_check r).reasoning_summary = r.reasoning_summary ∧
    (safe_check r).evidence = r.evidence ∧
    (∃ t, (safe_check r).info_requests = r.info_requests ++ t ∧ t.length ≤ 1) ∧
    (∀ a s b, r.plan_steps = a ++ s :: b →
      (∀ x, x ∈ a → is_command_dangerous x.command = false) →
      is_command_dangerous s.command = true →
      (safe_check r).info_requests = r.info_requests ++ [unsafeInfoRequest s.command] ∧
      (safe_check r).plan_steps = []) := by
  refine ⟨?_, ?_, ?_, ?_, ?_, ?_⟩
  case _ => cases h : r.plan_steps.find? (fun step => is_command_dangerous step.command) <;>
    simp [safe_check, h]
  case _ => cases h : r.plan_steps.find? (fun step => is_command_dangerous step.command) <;>
    simp [safe_check, h]
  case _ => cases h : r.plan_steps.find? (fun step => is_command_dangerous step.command) <;>
    simp [safe_check, h]
  case _ => cases h : r.plan_steps.find? (fun step => is_command_dangerous step.command) <;>
    simp [safe_check, h]
  case _ =>
    cases h : r.plan_steps.find? (fun step => is_command_dangerous step.command) with
    | none => exact ⟨[], by simp [safe_check, h], by simp⟩
    | some s => exact ⟨[unsafeInfoRequest s.command], by simp [safe_check, h], by simp⟩
  case _ =>
    intro a s b hsplit hsafe hdang
    have h : r.plan_steps.find? (fun step => is_command_dangerous step.command) = some s := by
      rw [hsplit]
      exact findFirstOfSplit _ a s b hsafe hdang
    exact ⟨by simp [safe_check, h], by simp [safe_check, h]⟩

/-- Witness for C10 at a concrete plan whose first dangerous step sits
behind a safe one. -/
theorem c10_witness :
    (safe_check respDanger).info_requests =
      respDanger.info_requests ++ [unsafeInfoRequest stepDanger.command] ∧
    (safe_check respDanger).plan_steps = [] :=
  (c10_safety_gate_frame respDanger).2.2.2.2.2 [stepSafe] stepDanger []
    (by decide) (by decide) (by decide)

/-! ### Claim theorems for the orchestrator -/

/-- C1 (amended): whenever analyze_log returns a StructuredPlan at all
(when the escalation round is entered with non-empty fallback evidence
it raises TypeError instead of returning, see analyze_log), the
returned plan carries one of the two enum status values; the
plan_steps emptiness clause of the original claim fails, see the
counterexample. -/
theorem c1_analyze_status_enum {J : Type} (env : PipelineEnv J) (log_text : String)
    (r : AnalysisResponse) (_h : (analyze_log env log_text).1 = Except.ok r) :
    r.status = Status.final ∨ r.status = Status.need_more_info := by
  cases r.status
  · exact Or.inl rfl
  · exact Or.inr rfl

/-- A validated Reasoner answer with status need_more_info, a safe
non-empty step list and high confidence. -/
def respNmiSteps : AnalysisResponse :=
  { status := Status.need_more_info
  , root_cause := "partial diagnosis"
  , confidence := Confidence.high
  , reasoning_summary := "needs confirmation"
  , evidence := []
  , plan_steps := [stepSafe]
  , info_requests := [] }

/-- Environment for the C1 counterexample: planner and critic both emit
respNmiSteps and the fallback corpus is empty. -/
def envC1 : PipelineEnv AnalysisResponse :=
  { loads := fun t => if t = "PLAN".data then Except.ok respNmiSteps
      else Except.error "JSONDecodeError"
  , validate := Except.ok
  , chat := fun _ => "PLAN"
  , contexts := []
  , webResults := []
  , enable_mock_web_search := true
  , max_log_chars := 14000
  , max_context_chars := 12000 }

/-- C1 counterexample: a full analyze_log run that returns a plan with
status need_more_info together with non-empty plan_steps. -/
theorem c1_counterexample :
    (analyze_log envC1 "boom").1 = Except.ok respNmiSteps ∧
    respNmiSteps.status = Status.need_more_info ∧
    respNmiSteps.plan_steps ≠ [] :=
  ⟨rfl, rfl, by decide⟩

/-- Witness for the amended C1 at a concrete returning run. -/
theorem c1_witness :
    respNmiSteps.status = Status.final ∨ respNmiSteps.status = Status.need_more_info :=
  c1_analyze_status_enum envC1 "boom" respNmiSteps rfl

/-- C4: a planner parse or validation failure yields the canned
need_more_info result (low confidence, empty plan and evidence, exactly
one synthesized info request) and analyze_log makes no further Reasoner
call: the chat call count is 1. -/
theorem c4_planner_failure_canned {J : Type} (env : PipelineEnv J) (log_text : String)
    (e : String) (h : stagePlan1 env = Except.error e) :
    (analyze_log env log_text).1 = Except.ok (cannedResult e) ∧
    (cannedResult e).status = Status.need_more_info ∧
    (cannedResult e).confidence = Confidence.low ∧
    (cannedResult e).plan_steps = [] ∧
    (cannedResult e).evidence = [] ∧
    (cannedResult e).info_requests = [cannedInfoRequest] ∧
    (analyze_log env log_text).2 = 1 := by
  refine ⟨?_, ?_, ?_, ?_, ?_, ?_, ?_⟩ <;> simp [analyze_log, h, cannedResult]

/-- Environment for the C4 witness: the planner answers with prose that
is not JSON and contains no braces, so both parse attempts fail. -/
def envC4 : PipelineEnv AnalysisResponse :=
  { loads := fun _ => Except.error "JSONDecodeError"
  , validate := Except.ok
  , chat := fun _ => "not json"
  , contexts := []
  , webResults := []
  , enable_mock_web_search := true
  , max_log_chars := 14000
  , max_context_chars := 12000 }

/-- Witness for C4 on a concrete run whose planner output is the
literal text: not json. -/
theorem c4_witness :
    (analyze_log envC4 "some log").1 = Except.ok (cannedResult "JSONDecodeError") ∧
    (cannedResult "JSONDecodeError").status = Status.need_more_info ∧
    (cannedResult "JSONDecodeError").confidence = Confidence.low ∧
    (cannedResult "JSONDecodeError").plan_steps = [] ∧
    (cannedResult "JSONDecodeError").evidence = [] ∧
    (cannedResult "JSONDecodeError").info_requests = [cannedInfoRequest] ∧
    (analyze_log envC4 "some log").2 = 1 :=
  c4_planner_failure_canned envC4 "some log" "JSONDecodeError" rfl

/-- A validated plan with low confidence: triggers the escalation. -/
def respLow : AnalysisResponse :=
  { status := Status.final
  , root_cause := "tentative diagnosis"
  , confidence := Confidence.low
  , reasoning_summary := "weak evidence"
  , evidence := []
  , plan_steps := [stepSafe]
  , info_requests := [] }

/-- A validated plan that no longer triggers the escalation. -/
def respGood : AnalysisResponse :=
  { status := Status.final
  , root_cause := "container killed by the OOM killer"
  , confidence := Confidence.high
  , reasoning_summary := "memory limit exceeded"
  , evidence := []
  , plan_steps := [stepSafe]
  , info_requests := [] }

/-- One fallback evidence hit. -/
def webHit : WebResult :=
  { title := "memory limits"
  , snippet := "raise the container memory limit"
  , source := "data/web_mock/memory.md"
  , score := 2 }

/-- Environment for the C5 failing input: the first round is low
confidence, escalation is enabled and the fallback corpus has a hit
(texts for further chat calls are supplied but never requested). -/
def envC5 : PipelineEnv AnalysisResponse :=
  { loads := fun t =>
      if t = "P1".data then Except.ok respLow
      else if t = "P2".data then Except.ok respGood
      else Except.error "JSONDecodeError"
  , validate := Except.ok
  , chat := fun n => if n ≤ 1 then "P1" else "P2"
  , contexts := []
  , webResults := [webHit]
  , enable_mock_web_search := true
  , max_log_chars := 14000
  , max_context_chars := 12000 }

/-- C5: the escalation round never produces a second gated candidate.
At a concrete run satisfying every premise of the claim that is under
the control of the inputs (escalation triggered, fallback evidence
found), analyze_log raises TypeError after exactly two Reasoner calls
(pipeline.py line 175 passes web_results to planner_prompt, which has
no such parameter), so the asserted selection between the candidate
and the pre-escalation result never occurs in the program. -/
theorem c5_escalation_no_candidate :
    needs_escalation (safe_check (stageReviewed envC5 respLow)) = true ∧
    envC5.webResults ≠ [] ∧
    analyze_log envC5 "CrashLoopBackOff: OOMKilled" = (Except.error "TypeError", 2) :=
  ⟨by decide, by decide, rfl⟩

/-- C3: the escalation round is unreachable.  Whenever its entry
condition holds (planning succeeded, the gated result triggers the
escalation, the feature is enabled, the fallback corpus is non-empty),
analyze_log raises TypeError after exactly two Reasoner calls: the
planner v2 and critic v2 calls, and with them the parse-failure
fallbacks of pipeline.py lines 179 to 197 that the claim describes,
are never reached. -/
theorem c3_escalation_unreachable {J : Type} (env : PipelineEnv J) (log_text : String)
    (plan : AnalysisResponse)
    (h1 : stagePlan1 env = Except.ok plan)
    (h2 : env.enable_mock_web_search = true)
    (h3 : needs_escalation (safe_check (stageReviewed env plan)) = true)
    (h4 : env.webResults ≠ []) :
    analyze_log env log_text = (Except.error "TypeError", 2) := by
  have h4' : env.webResults.isEmpty = false := by
    cases hw : env.webResults with
    | nil => exact absurd hw h4
    | cons a l => rfl
  simp [analyze_log, h1, h2, h3, h4']

/-- Environment for the C3 failing input: low-confidence first round,
escalation enabled, one fallback hit (the Reasoner texts a v2 round
would consume are supplied but never requested). -/
def envC3 : PipelineEnv AnalysisResponse :=
  { loads := fun t =>
      if t = "P1".data then Except.ok respLow
      else if t = "P2".data then Except.ok respGood
      else Except.error "JSONDecodeError"
  , validate := Except.ok
  , chat := fun n => if n ≤ 1 then "P1" else if n = 2 then "P2" else "no json here"
  , contexts := []
  , webResults := [webHit]
  , enable_mock_web_search := true
  , max_log_chars := 14000
  , max_context_chars := 12000 }

/-- Witness for C3 at the concrete failing input: the run crashes with
TypeError after two chat calls instead of exercising any fallback. -/
theorem c3_witness :
    analyze_log envC3 "CrashLoopBackOff: OOMKilled" = (Except.error "TypeError", 2) :=
  c3_escalation_unreachable envC3 "CrashLoopBackOff: OOMKilled" respLow rfl rfl
    (by decide) (by decide)

/-! ### Claim theorem for the context window -/

/-- Total character count of a context list. -/
def ctxLen (l : List ContextItem) : Nat := (l.map (fun c => c.text.length)).sum

/-- trimContexts computed from an arbitrary running count (helper). -/
lemma trimContextsGeneral (budget : Nat) (items : List ContextItem) :
    ∀ acc, ∃ k, trimContexts budget acc items = items.take k ∧
      (acc + ctxLen (items.take k) ≤ budget ∨ k = 0) ∧
      ∀ first rest, items.drop k = first :: rest →
        budget < acc + ctxLen (items.take k) + first.text.length := by
  induction items with
  | nil =>
      intro acc
      refine ⟨0, by simp [trimContexts], Or.inr rfl, ?_⟩
      intro first rest h
      simp at h
  | cons c cs ih =>
      intro acc
      by_cases h : budget < acc + c.text.length
      · refine ⟨0, by simp [trimContexts, h], Or.inr rfl, ?_⟩
        intro first rest hdrop
        rw [List.drop_zero] at hdrop
        injection hdrop with h1 h2
        subst h1
        simp [ctxLen]
        omega
      · obtain ⟨k, hk1, hk2, hk3⟩ := ih (acc + c.text.length)
        have hexp : ctxLen (c :: cs.take k) = c.text.length + ctxLen (cs.take k) := by
          simp [ctxLen]
        refine ⟨k + 1, ?_, ?_, ?_⟩
        · simp [trimContexts, h, List.take_succ_cons, hk1]
        · left
          rw [List.take_succ_cons, hexp]
          cases hk2 with
          | inl hle => omega
          | inr hk0 =>
              subst hk0
              simp [ctxLen]
              omega
        · intro first rest hdrop
          rw [List.drop_succ_cons] at hdrop
          have hnext := hk3 first rest hdrop
          rw [List.take_succ_cons, hexp]
          omega

/-- C8: the prompt-context window is the greedy prefix of the retrieved
list: some prefix of the items whose total character count fits the
budget is kept, and whenever anything is dropped, the first dropped item
would overflow the budget (so it and everything after it are dropped,
whole). -/
theorem c8_context_window (budget : Nat) (items : List ContextItem) :
    ∃ k, trimContexts budget 0 items = items.take k ∧
      ctxLen (items.take k) ≤ budget ∧
      ∀ first rest, items.drop k = first :: rest →
        budget < ctxLen (items.take k) + first.text.length := by
  obtain ⟨k, h1, h2, h3⟩ := trimContextsGeneral budget items 0
  refine ⟨k, h1, ?_, ?_⟩
  · cases h2 with
    | inl hle => omega
    | inr hk0 =>
        subst hk0
        simp [ctxLen]
  · intro first rest hdrop
    have := h3 first rest hdrop
    omega

def ctxA : ContextItem := { text := "abc", source := "kb1", chunk_index := 0 }
def ctxB : ContextItem := { text := "defg", source := "kb1", chunk_index := 1 }
def ctxC : ContextItem := { text := "hijkl", source := "kb2", chunk_index := 0 }
def ctxD : ContextItem := { text := "m", source := "kb2", chunk_index := 1 }

/-- Witness for C8: with budget 8, the first two items (7 characters)
are kept, the overflowing third is dropped whole, and the fourth is
dropped although it would fit on its own. -/
theorem c8_witness :
    (∃ k, trimContexts 8 0 [ctxA, ctxB, ctxC, ctxD] = [ctxA, ctxB, ctxC, ctxD].take k ∧
      ctxLen ([ctxA, ctxB, ctxC, ctxD].take k) ≤ 8 ∧
      ∀ first rest, [ctxA, ctxB, ctxC, ctxD].drop k = first :: rest →
        8 < ctxLen ([ctxA, ctxB, ctxC, ctxD].take k) + first.text.length) ∧
    trimContexts 8 0 [ctxA, ctxB, ctxC, ctxD] = [ctxA, ctxB] :=
  ⟨c8_context_window 8 [ctxA, ctxB, ctxC, ctxD], by decide⟩

/-! ### Claim theorem for the parser -/

/-- dropWhile passes over an element that fails the test (helper). -/
lemma dropWhileAppendCons {α : Type} (p : α → Bool) (a : List α) (x : α) (b : List α)
    (hx : p x = false) :
    (a ++ x :: b).dropWhile p = a.dropWhile p ++ x :: b := by
  induction a with
  | nil => simp [List.dropWhile_cons, hx]
  | cons y ys ih =>
      by_cases hy : p y = true
      · simp [List.dropWhile_cons, hy, ih]
      · simp [List.dropWhile_cons, hy]

/-- Stripping prose around a brace-delimited block only strips the outer
whitespace of the prose (helper). -/
lemma pyStripDecomp (pre mid post : List Char) :
    pyStrip (pre ++ ('\x7b' :: mid ++ ['\x7d']) ++ post) =
      pre.dropWhile isSpaceChar ++ '\x7b' :: mid ++ '\x7d' ::
        (post.reverse.dropWhile isSpaceChar).reverse := by
  unfold pyStrip
  have e1 : pre ++ ('\x7b' :: mid ++ ['\x7d']) ++ post
      = pre ++ '\x7b' :: (mid ++ '\x7d' :: post) := by simp
  rw [e1, dropWhileAppendCons _ _ _ _ (by decide)]
  have e2 : (pre.dropWhile isSpaceChar ++ '\x7b' :: (mid ++ '\x7d' :: post)).reverse
      = post.reverse ++ '\x7d' ::
          (mid.reverse ++ '\x7b' :: (pre.dropWhile isSpaceChar).reverse) := by
    simp
  rw [e2, dropWhileAppendCons _ _ _ _ (by decide)]
  simp

/-- findIdx finds the first occurrence (helper). -/
lemma findIdxAppendConsSelf (c : Char) (a b : List Char) (ha : c ∉ a) :
    findIdx c (a ++ c :: b) = some a.length := by
  induction a with
  | nil => simp [findIdx]
  | cons y ys ih =>
      have hy : (y == c) = false := by
        simp only [beq_eq_false_iff_ne]
        intro hEq
        exact ha (by simp [hEq])
      have hys : c ∉ ys := fun h => ha (by simp [h])
      simp [findIdx, hy, ih hys]

/-- rfindIdx finds the last occurrence (helper). -/
lemma rfindIdxAppendConsSelf (c : Char) (a b : List Char) (hb : c ∉ b) :
    rfindIdx c (a ++ c :: b) = some a.length := by
  unfold rfindIdx
  have e1 : (a ++ c :: b).reverse = b.reverse ++ c :: a.reverse := by simp
  rw [e1, findIdxAppendConsSelf c b.reverse a.reverse (by simpa using hb)]
  have e3 : (a ++ c :: b).length - 1 - b.reverse.length = a.length := by
    simp only [List.length_append, List.length_reverse, List.length_cons]
    omega
  simp [e3]

/-- Python slicing of the middle block out of a concatenation
(helper). -/
lemma sliceExtract (a b c : List Char) :
    slice (a ++ b ++ c) a.length (a.length + b.length) = b := by
  unfold slice
  rw [show a.length + b.length = (a ++ b).length by simp,
      List.take_left, List.drop_left]

/-- C7: the parser first tries a direct parse of the stripped text and
returns its value on success; when the direct parse fails and the text
is a brace-delimited block surrounded by brace-free prose, the substring
from the first opening brace to the last closing brace is exactly that
block, so the wrapped object parses to the same value as the bare
object. -/
theorem c7_parser_prose_recovery {J : Type} (loads : List Char → Except String J) :
    (∀ (text : List Char) (w : J), loads (pyStrip text) = Except.ok w →
      parse_json_strict loads text = Except.ok w) ∧
    (∀ (v : J) (pre mid post : List Char) (e : String),
      '\x7b' ∉ pre → '\x7d' ∉ pre → '\x7b' ∉ post → '\x7d' ∉ post →
      loads (pyStrip (pre ++ ('\x7b' :: mid ++ ['\x7d']) ++ post)) = Except.error e →
      loads ('\x7b' :: mid ++ ['\x7d']) = Except.ok v →
      parse_json_strict loads (pre ++ ('\x7b' :: mid ++ ['\x7d']) ++ post) = Except.ok v) := by
  constructor
  · intro text w h
    simp [parse_json_strict, h]
  · intro v pre mid post e hpre1 hpre2 hpost1 hpost2 hdirect hobj
    have hstrip := pyStripDecomp pre mid post
    have hpreLb : '\x7b' ∉ pre.dropWhile isSpaceChar := by
      intro h
      exact hpre1 ((List.dropWhile_sublist _).subset h)
    have hpostRb : '\x7d' ∉ (post.reverse.dropWhile isSpaceChar).reverse := by
      intro h
      apply hpost2
      have h1 : '\x7d' ∈ post.reverse.dropWhile isSpaceChar := by simpa using h
      have h2 : '\x7d' ∈ post.reverse := (List.dropWhile_sublist _).subset h1
      simpa using h2
    have hfind : findIdx '\x7b'
        (pre.dropWhile isSpaceChar ++ '\x7b' :: (mid ++ '\x7d' ::
          (post.reverse.dropWhile isSpaceChar).reverse)) =
        some (pre.dropWhile isSpaceChar).length :=
      findIdxAppendConsSelf _ _ _ hpreLb
    have hshape : pre.dropWhile isSpaceChar ++ '\x7b' :: (mid ++ '\x7d' ::
          (post.reverse.dropWhile isSpaceChar).reverse) =
        (pre.dropWhile isSpaceChar ++ '\x7b' :: mid) ++ '\x7d' ::
          (post.reverse.dropWhile isSpaceChar).reverse := by
      simp
    have hrfind : rfindIdx '\x7d'
        (pre.dropWhile isSpaceChar ++ '\x7b' :: (mid ++ '\x7d' ::
          (post.reverse.dropWhile isSpaceChar).reverse)) =
        some (pre.dropWhile isSpaceChar ++ '\x7b' :: mid).length := by
      rw [hshape]
      exact rfindIdxAppendConsSelf _ _ _ hpostRb
    unfold parse_json_strict
    rw [hstrip] at hdirect ⊢
    simp only [List.cons_append, List.append_assoc] at hdirect ⊢
    have hlt : (pre.dropWhile isSpaceChar).length <
        (pre.dropWhile isSpaceChar ++ '\x7b' :: mid).length := by
      simp [List.length_append]
    simp only [hdirect, hfind, hrfind]
    rw [if_pos hlt]
    have hslice : slice
        (pre.dropWhile isSpaceChar ++ '\x7b' :: (mid ++ '\x7d' ::
          (post.reverse.dropWhile isSpaceChar).reverse))
        (pre.dropWhile isSpaceChar).length
        ((pre.dropWhile isSpaceChar ++ '\x7b' :: mid).length + 1) =
        '\x7b' :: mid ++ ['\x7d'] := by
      have e3 : pre.dropWhile isSpaceChar ++ '\x7b' :: (mid ++ '\x7d' ::
            (post.reverse.dropWhile isSpaceChar).reverse) =
          pre.dropWhile isSpaceChar ++ ('\x7b' :: mid ++ ['\x7d']) ++
            (post.reverse.dropWhile isSpaceChar).reverse := by
        simp
      have e4 : (pre.dropWhile isSpaceChar ++ '\x7b' :: mid).length + 1 =
          (pre.dropWhile isSpaceChar).length + ('\x7b' :: mid ++ ['\x7d']).length := by
        simp [List.length_append]
        omega
      rw [e3, e4, sliceExtract]
    rw [hslice, hobj]

/-- A concrete external JSON parser for the C7 witness: it recognises
exactly one object text. -/
def loadsC7 : List Char → Except String Nat :=
  fun t => if t = '\x7b' :: "x".data ++ ['\x7d'] then Except.ok 7
    else Except.error "JSONDecodeError"

/-- Witness for C7: an object wrapped in brace-free prose parses to the
same value as the bare object. -/
theorem c7_witness :
    parse_json_strict loadsC7
      ("Here is the result: ".data ++ ('\x7b' :: "x".data ++ ['\x7d']) ++ " Thanks".data) =
      Except.ok 7 :=
  (c7_parser_prose_recovery loadsC7).2 7 "Here is the result: ".data "x".data " Thanks".data
    "JSONDecodeError" (by decide) (by decide) (by decide) (by decide) rfl rfl

/-! ### Claim theorems for the serialized data model

The HTTP boundary returns the AnalysisResponse serialized by the
pydantic model_dump: every declared field of models.py is emitted, in
declaration order; Literal fields are emitted verbatim; the three list
fields always serialize to arrays (their defaults are empty lists,
never None and never absent).  The JSON fragment needed for this is
modelled below. -/

inductive JsonVal where
  | str (s : String)
  | arr (xs : List JsonVal)
  | obj (fields : List (String × JsonVal))

/-- The keys of a serialized object, in order. -/
def objKeys : JsonVal → List String
  | JsonVal.obj kvs => kvs.map Prod.fst
  | _ => []

/-- The first field of a serialized object carrying the given key. -/
def jsonField (j : JsonVal) (k : String) : Option JsonVal :=
  match j with
  | JsonVal.obj kvs => (kvs.find? (fun kv => kv.1 == k)).map Prod.snd
  | _ => none

def Status.lit : Status → String
  | Status.final => "final"
  | Status.need_more_info => "need_more_info"

def Confidence.lit : Confidence → String
  | Confidence.high => "high"
  | Confidence.medium => "medium"
  | Confidence.low => "low"

def Risk.lit : Risk → String
  | Risk.low => "low"
  | Risk.med => "med"
  | Risk.medium => "medium"
  | Risk.high => "high"

/-- The pydantic validation of the risk Literal of models.py: exactly
the four written literals are accepted, each standing for itself; no
synonym normalization exists anywhere in the source. -/
def Risk.ofLiteral : String → Except String Risk
  | "low" => Except.ok Risk.low
  | "med" => Except.ok Risk.med
  | "medium" => Except.ok Risk.medium
  | "high" => Except.ok Risk.high
  | _ => Except.error "ValidationError"

def evidenceToJson (e : EvidenceItem) : JsonVal :=
  JsonVal.obj
    [("type", JsonVal.str e.type)
    , ("snippet", JsonVal.str e.snippet)
    , ("source", JsonVal.str e.source)]

def planStepToJson (s : PlanStep) : JsonVal :=
  JsonVal.obj
    [("title", JsonVal.str s.title)
    , ("command", JsonVal.str s.command)
    , ("purpose", JsonVal.str s.purpose)
    , ("expected", JsonVal.str s.expected)
    , ("risk", JsonVal.str s.risk.lit)]

def infoRequestToJson (i : InfoRequest) : JsonVal :=
  JsonVal.obj
    [("title", JsonVal.str i.title)
    , ("command", JsonVal.str i.command)
    , ("why", JsonVal.str i.why)]

def responseToJson (r : AnalysisResponse) : JsonVal :=
  JsonVal.obj
    [("status", JsonVal.str r.status.lit)
    , ("root_cause", JsonVal.str r.root_cause)
    , ("confidence", JsonVal.str r.confidence.lit)
    , ("reasoning_summary", JsonVal.str r.reasoning_summary)
    , ("evidence", JsonVal.arr (r.evidence.map evidenceToJson))
    , ("plan_steps", JsonVal.arr (r.plan_steps.map planStepToJson))
    , ("info_requests", JsonVal.arr (r.info_requests.map infoRequestToJson))]

/-- A plan step whose risk was supplied as the literal med. -/
def stepMed : PlanStep :=
  { title := "Check memory"
  , command := "kubectl top pod"
  , purpose := "inspect memory usage"
  , expected := "usage shown"
  , risk := Risk.med }

/-- C6 counterexample: the validator accepts the risk literal med
without coercing it to medium, and the serialized plan step key is
expected, not expected_outcome, refuting the claim as stated. -/
theorem c6_counterexample :
    Risk.ofLiteral "med" = Except.ok Risk.med ∧
    jsonField (planStepToJson stepMed) "risk" = some (JsonVal.str "med") ∧
    "med" ≠ "medium" ∧
    objKeys (planStepToJson stepMed) = ["title", "command", "purpose", "expected", "risk"] ∧
    "expected_outcome" ∉ objKeys (planStepToJson stepMed) ∧
    objKeys (evidenceToJson { type := "log", snippet := "OOMKilled", source := "pod log" }) =
      ["type", "snippet", "source"] ∧
    objKeys (infoRequestToJson cannedInfoRequest) = ["title", "command", "why"] :=
  ⟨rfl, rfl, by decide, rfl, by decide, rfl, rfl⟩

/-- C6 (amended): the serialized response matches the data model of
models.py exactly: the seven response keys in order; each plan step
serializes with keys title, command, purpose, expected, risk and a risk
literal drawn verbatim from the four values low, med, medium, high;
each evidence item with keys type, snippet, source; each info request
with keys title, command, why; and the three sequence fields are always
present as arrays (empty sequences as empty arrays). -/
theorem c6_serialized_schema (r : AnalysisResponse) :
    objKeys (responseToJson r) =
      ["status", "root_cause", "confidence", "reasoning_summary",
       "evidence", "plan_steps", "info_requests"] ∧
    jsonField (responseToJson r) "evidence" =
      some (JsonVal.arr (r.evidence.map evidenceToJson)) ∧
    jsonField (responseToJson r) "plan_steps" =
      some (JsonVal.arr (r.plan_steps.map planStepToJson)) ∧
    jsonField (responseToJson r) "info_requests" =
      some (JsonVal.arr (r.info_requests.map infoRequestToJson)) ∧
    (∀ s, s ∈ r.plan_steps →
      objKeys (planStepToJson s) = ["title", "command", "purpose", "expected", "risk"] ∧
      jsonField (planStepToJson s) "risk" = some (JsonVal.str s.risk.lit) ∧
      s.risk.lit ∈ ["low", "med", "medium", "high"]) ∧
    (∀ ev, ev ∈ r.evidence →
      objKeys (evidenceToJson ev) = ["type", "snippet", "source"]) ∧
    (∀ i, i ∈ r.info_requests →
      objKeys (infoRequestToJson i) = ["title", "command", "why"]) := by
  refine ⟨rfl, rfl, rfl, rfl, ?_, ?_, ?_⟩
  · intro s _
    obtain ⟨t, c, p, ex, rk⟩ := s
    refine ⟨rfl, rfl, ?_⟩
    cases rk <;> simp [Risk.lit]
  · intro ev _
    rfl
  · intro i _
    rfl

/-- A raw evidence item used by the C6 witness. -/
def evLog : EvidenceItem := { type := "log", snippet := "OOMKilled", source := "pod log" }

/-- A response exercising every sequence field. -/
def respFull : AnalysisResponse :=
  { status := Status.final
  , root_cause := "memory limit too low"
  , confidence := Confidence.medium
  , reasoning_summary := "kb match on memory limits"
  , evidence := [evLog]
  , plan_steps := [stepSafe, stepMed]
  , info_requests := [cannedInfoRequest] }

/-- Witness for the amended C6 at a concrete fully populated
response. -/
theorem c6_witness :
    objKeys (responseToJson respFull) =
      ["status", "root_cause", "confidence", "reasoning_summary",
       "evidence", "plan_steps", "info_requests"] ∧
    jsonField (responseToJson respFull) "plan_steps" =
      some (JsonVal.arr (respFull.plan_steps.map planStepToJson)) ∧
    objKeys (planStepToJson stepMed) = ["title", "command", "purpose", "expected", "risk"] ∧
    stepMed.risk.lit ∈ ["low", "med", "medium", "high"] := by
  have h := c6_serialized_schema respFull
  exact ⟨h.1, h.2.2.1, (h.2.2.2.2.1 stepMed (by decide)).1,
    (h.2.2.2.2.1 stepMed (by decide)).2.2⟩

end LogPipeline
